import Mathlib

/-!
Verification of the resilient multi-provider aggregation and AI-fallback layer
of the InsightSnap backend.

The JavaScript sources are shallowly embedded:
- JS numbers are modelled as exact rationals (`Rat`), machine integers as `Int`.
- A JS object field that may be `undefined`/`null`/absent is `Option`-typed;
  `none` stands for any absent/nullish value.
- The JS `||` operator on such values is modelled by the `jsOr*` helpers below:
  a number is falsy exactly when it is absent or `0`; a string is falsy exactly
  when it is absent or `""`.
- `Math.round x` is `⌊x + 1/2⌋` (JS rounds half-up), modelled by `jsRound`.
- Network effects (axios calls) are passed in explicitly as parameters: a
  function under test receives the outcome the HTTP layer would have delivered.
- Nondeterministic defaults (`Date.now()`, `Math.random()`, `new Date()
  .toISOString()`) are threaded as explicit `now`/`nonce` string parameters.
-/

/-! ### JS value helpers -/

/-- JS `a || b` on a number-or-undefined: a number is falsy iff absent or `0`. -/
def jsOrZ (a b : Option Int) : Option Int :=
  match a with
  | none => b
  | some n => if n = 0 then b else some n

/-- JS `a || d` where `d` is a number literal: collapses to a plain `Int`. -/
def zOr (a : Option Int) (d : Int) : Int :=
  match a with
  | none => d
  | some n => if n = 0 then d else n

/-- JS `a || b` on a string-or-undefined: a string is falsy iff absent or empty. -/
def jsOrS (a b : Option String) : Option String :=
  match a with
  | none => b
  | some s => if s = "" then b else some s

/-- JS truthiness of a string-or-undefined value. -/
def strTruthy (a : Option String) : Bool :=
  match a with
  | none => false
  | some s => s ≠ ""

/-- JS truthiness of a number-or-undefined value. -/
def zTruthy (a : Option Int) : Bool :=
  match a with
  | none => false
  | some n => n ≠ 0

/-- JS `a || d` on a rational-valued option with a literal default
(used for the AI option defaults `temperature || 0.3`, `max_tokens || 2000`). -/
def qOr (a : Option Rat) (d : Rat) : Rat :=
  match a with
  | none => d
  | some x => if x = 0 then d else x

/-- JS `Math.round`: round half toward positive infinity. -/
def jsRound (q : Rat) : Int := ⌊q + 1/2⌋

/-- Rounding an integral value is the identity. -/
theorem jsRound_intCast (n : Int) : jsRound (n : Rat) = n := by
  unfold jsRound
  rw [Int.floor_int_add]
  norm_num

/-- Rounding preserves non-negativity. -/
theorem jsRound_nonneg {q : Rat} (h : 0 ≤ q) : 0 ≤ jsRound q := by
  unfold jsRound
  exact Int.le_floor.mpr (by push_cast; linarith)

/-- JS `String.prototype.includes`, via `splitOn`: `sub` occurs in `s` iff
splitting on it yields more than one piece. -/
def jsIncludes (s sub : String) : Bool := (s.splitOn sub).length != 1

/-! ### AI provider clients (src/services/ai)

`GroqClient.call` (src/unnamed/part_000, the groqClient.js module) and
`OllamaClient.call` (src/services/ai/ollamaClient.js) issue one axios POST
each.  The axios outcome is a parameter: -/

/-- Outcome of an axios request as the client code observes it.
With `validateStatus := status < 500`, statuses below 500 resolve normally
(`resolved`); a 5xx response rejects with `error.response` set
(`rejectedResponse`); transport failures reject with an error code and a
message but no response (`netError`). -/
inductive AxiosOutcome (α : Type) where
  | resolved (status : Int) (data : Option α)
  | rejectedResponse (status : Int) (data : Option α) (message : String)
  | netError (code : String) (message : String)

/-- Shape of `response.data.choices[i].message` in a Groq reply. -/
structure GroqMessage where
  content : Option String
deriving Repr, DecidableEq

/-- One element of `response.data.choices`; `message` may be absent. -/
structure GroqChoice where
  message : Option GroqMessage
deriving Repr, DecidableEq

/-- Body of a Groq chat-completions reply: `choices` (absent, or a list which
may be empty) and the error message path `data.error.message`. -/
structure GroqData where
  choices : Option (List GroqChoice)
  errorMessage : Option String
deriving Repr, DecidableEq

/-- Body of an Ollama `/api/generate` reply: the generated text under
`response` and the error text under `error`. -/
structure OllamaData where
  response : Option String
  error : Option String
deriving Repr, DecidableEq

/-- `GroqClient.call` (src/unnamed/part_000 lines 23-83).  Checks the API key,
then follows the axios outcome through the try/catch:
- status ≥ 400 throws an error the catch re-raises;
- a missing `data`/`choices`/`choices[0]` throws the invalid-response error;
- a missing `message` raises a TypeError reading `.content`;
- a present `message` with absent `content` raises a TypeError when the
  success log evaluates `content.length`;
- otherwise the content string is returned as-is, even when it is `""`. -/
def GroqClient.call (apiKey : Option String) (outcome : AxiosOutcome GroqData) :
    Except String String :=
  if strTruthy apiKey = false then
    .error "GROQ_API_KEY not configured"
  else
    match outcome with
    | .netError code message =>
      .error (if code = "ECONNREFUSED" ∨ code = "ETIMEDOUT" then message else message)
    | .rejectedResponse _ data message =>
      .error ("Groq API error: " ++
        (match data.bind (·.errorMessage) with
         | some m => m
         | none => message))
    | .resolved status data =>
      if status ≥ 400 then
        .error ("Groq API error: " ++ toString status ++ " - " ++
          (match data.bind (·.errorMessage) with
           | some m => m
           | none => "Unknown error"))
      else
        match data with
        | none => .error "Invalid response from Groq API"
        | some d =>
          match d.choices with
          | none => .error "Invalid response from Groq API"
          | some [] => .error "Invalid response from Groq API"
          | some (c :: _) =>
            match c.message with
            | none => .error "TypeError: Cannot read properties of undefined (reading content)"
            | some m =>
              match m.content with
              | none => .error "TypeError: Cannot read properties of undefined (reading length)"
              | some s => .ok s

/-- `OllamaClient.call` (src/services/ai/ollamaClient.js lines 21-70).
Statuses ≥ 400 and a falsy `data.response` (absent or the empty string, per
`!response.data.response`) throw; the catch classifies transport errors and
re-raises everything else, rewording any error whose message contains
"timeout". -/
def OllamaClient.call (baseUrl : String) (outcome : AxiosOutcome OllamaData) :
    Except String String :=
  match outcome with
  | .netError code message =>
    if code = "ECONNREFUSED" then
      .error ("Ollama service unavailable at " ++ baseUrl ++
        ". Please check if Ollama is running.")
    else if code = "ETIMEDOUT" ∨ jsIncludes message "timeout" then
      .error "AI model request timed out. The model may be overloaded or not loaded."
    else
      .error message
  | .rejectedResponse _ data message =>
    .error ("AI model error: " ++
      (match data.bind (·.error) with
       | some m => m
       | none => message))
  | .resolved status data =>
    if status ≥ 400 then
      let raised := "Ollama API error: " ++ toString status ++ " - " ++
        (match data.bind (·.error) with
         | some m => m
         | none => "Unknown error")
      if jsIncludes raised "timeout" then
        .error "AI model request timed out. The model may be overloaded or not loaded."
      else
        .error raised
    else
      match data with
      | none => .error "Invalid response from Ollama API"
      | some d =>
        match d.response with
        | none => .error "Invalid response from Ollama API"
        | some s =>
          if s = "" then .error "Invalid response from Ollama API"
          else .ok s

/-! ### AI fallback coordinator (src/services/ai/aiClient.js) -/

/-- What a call to `AIClient.call` can produce: a text result, a thrown
`Error` carrying a message, or a thrown `ReferenceError` naming the
unresolved identifier. -/
inductive CallResult where
  | ok (text : String)
  | err (message : String)
  | refErr (ident : String)
deriving Repr, DecidableEq

/-- `AIClient.call` (src/services/ai/aiClient.js lines 20-46).  The provider
calls are passed in as their outcomes (`groq`, `ollama`).
`forceOllama` short-circuits to the backup; otherwise Groq is attempted only
when `GroqClient.isAvailable()` holds (`groqConfigured`).  When the Ollama
call fails on the non-forced path, line 43 evaluates the template literal
containing `groqError?.message`; `groqError` is bound only as the catch
parameter of the inner catch block at line 31 and is not in scope at line 43,
so that evaluation throws `ReferenceError: groqError is not defined` before
the `Error` of line 44 can be constructed. -/
def AIClient.call (forceOllama : Bool) (groqConfigured : Bool)
    (groq ollama : Except String String) : CallResult :=
  if forceOllama then
    match ollama with
    | .ok t => .ok t
    | .error m => .err m
  else if groqConfigured then
    match groq with
    | .ok t => .ok t
    | .error _ =>
      match ollama with
      | .ok t => .ok t
      | .error _ => .refErr "groqError"
  else
    match ollama with
    | .ok t => .ok t
    | .error _ => .refErr "groqError"

/-! ### AI request bodies (defaulted options) -/

/-- The options object accepted by both AI clients. -/
structure AIOptions where
  temperature : Option Rat := none
  max_tokens : Option Rat := none
  forceOllama : Bool := false
deriving Repr, DecidableEq

/-- Body of the Groq chat-completions POST (src/unnamed/part_000 lines
34-45). -/
structure GroqRequestBody where
  model : String
  userContent : String
  temperature : Rat
  max_tokens : Rat
  stream : Bool
deriving Repr, DecidableEq

/-- Construction of the Groq request body: `options.temperature || 0.3` and
`options.max_tokens || 2000`. -/
def GroqClient.requestBody (prompt : String) (options : AIOptions) : GroqRequestBody :=
  { model := "llama-3.1-70b-versatile"
    userContent := prompt
    temperature := qOr options.temperature (3/10)
    max_tokens := qOr options.max_tokens 2000
    stream := false }

/-- Body of the Ollama `/api/generate` POST (src/services/ai/ollamaClient.js
lines 27-35). -/
structure OllamaRequestBody where
  model : String
  prompt : String
  stream : Bool
  temperature : Rat
  max_tokens : Rat
  num_ctx : Int
deriving Repr, DecidableEq

/-- Construction of the Ollama request body: same `|| 0.3` / `|| 2000`
defaults, plus the fixed context size 8192. -/
def OllamaClient.requestBody (prompt : String) (options : AIOptions) : OllamaRequestBody :=
  { model := "llama3.1:8b"
    prompt := prompt
    stream := false
    temperature := qOr options.temperature (3/10)
    max_tokens := qOr options.max_tokens 2000
    num_ctx := 8192 }

example : AIClient.call false true (.error "g") (.error "o") = .refErr "groqError" := by decide
example : GroqClient.call (some "k")
    (.resolved 200 (some ⟨some [⟨some ⟨some ""⟩⟩], none⟩)) = .ok "" := rfl
example : OllamaClient.call "u" (.resolved 200 (some ⟨some "", none⟩)) =
    .error "Invalid response from Ollama API" := rfl

/-! ### ScrapeCreators normalizers (src/services/scrapeCreatorsService.js)

Raw provider items.  Every field the formatter reads is `Option`-typed;
`none` is an absent/nullish JS value. -/

/-- A raw Reddit item as read by `formatRedditPost` (lines 275-291). -/
structure RedditRaw where
  id : Option String := none
  name : Option String := none
  title : Option String := none
  text : Option String := none
  selftext : Option String := none
  body : Option String := none
  subreddit : Option String := none
  subreddit_name_prefixed : Option String := none
  score : Option Int := none
  ups : Option Int := none
  num_comments : Option Int := none
  comments : Option Int := none
  created_utc : Option Int := none
  created : Option String := none
  timestamp : Option String := none
  url : Option String := none
  permalink : Option String := none
  author : Option String := none
  author_name : Option String := none
deriving Repr, DecidableEq

/-- A raw YouTube item as read by `formatYouTubePost` (lines 296-314).
`snippetTitle` models the optional-chained `video.snippet?.title`. -/
structure YouTubeRaw where
  viewCount : Option Int := none
  views : Option Int := none
  view_count : Option Int := none
  likeCount : Option Int := none
  likes : Option Int := none
  like_count : Option Int := none
  commentCount : Option Int := none
  comments : Option Int := none
  comment_count : Option Int := none
  id : Option String := none
  videoId : Option String := none
  video_id : Option String := none
  title : Option String := none
  snippetTitle : Option String := none
  description : Option String := none
  channelTitle : Option String := none
  channel : Option String := none
  channel_title : Option String := none
  author : Option String := none
  publishedAt : Option String := none
  published_at : Option String := none
  upload_date : Option String := none
  url : Option String := none
deriving Repr, DecidableEq

/-- A raw Threads item as read by `formatThreadsPost` (lines 319-334). -/
structure ThreadsRaw where
  likes : Option Int := none
  like_count : Option Int := none
  replies : Option Int := none
  comments : Option Int := none
  reply_count : Option Int := none
  reposts : Option Int := none
  repost_count : Option Int := none
  shares : Option Int := none
  id : Option String := none
  post_id : Option String := none
  text : Option String := none
  content : Option String := none
  caption : Option String := none
  body : Option String := none
  username : Option String := none
  author : Option String := none
  user : Option String := none
  created_at : Option String := none
  timestamp : Option String := none
  posted_at : Option String := none
  url : Option String := none
  permalink : Option String := none
  post_url : Option String := none
deriving Repr, DecidableEq

/-- The record each `format*Post` builds (the object literal of lines
280-290 / 305-313 / 325-333) plus the `platform` key the orchestrator spreads
in at lines 44-47.  Every field is `Option`-typed so that null/undefined
fields are expressible: a key the object literal never assigns (such as
`thumbnail`, and `platform` before the orchestrator adds it) reads back as
`undefined`, i.e. `none`. -/
structure CanonicalRecord where
  id : Option String := none
  content : Option String := none
  source : Option String := none
  engagement : Option Int := none
  timestamp : Option String := none
  url : Option String := none
  author : Option String := none
  platform : Option String := none
  thumbnail : Option String := none
deriving Repr, DecidableEq

/-- Rendering of `new Date(n).toISOString()` for an epoch value: modelled as
an opaque-but-concrete injective rendering of the epoch; no claim inspects
the text of a converted timestamp, only its definedness. -/
def epochMsToIso (n : Int) : String := "epoch:" ++ toString n

/-- `ScrapeCreatorsService.formatRedditPost` (lines 275-291).
`now` is the `new Date().toISOString()` capture time; `nonce` is the
`Date.now()+Math.random()` token of the generated fallback id. -/
def formatRedditPost (now nonce : String) (post : RedditRaw) : CanonicalRecord :=
  let engagement : Int :=
    zOr (jsOrZ post.score post.ups) 0 + zOr (jsOrZ post.num_comments post.comments) 0
  { id := jsOrS (jsOrS post.id post.name) (some ("reddit_" ++ nonce))
    content := jsOrS (jsOrS (jsOrS (jsOrS post.title post.text) post.selftext)
      post.body) (some "")
    source :=
      match post.subreddit with
      | some s => if s = "" then jsOrS post.subreddit_name_prefixed (some "Reddit")
                  else some ("r/" ++ s)
      | none => jsOrS post.subreddit_name_prefixed (some "Reddit")
    engagement := some (jsRound (engagement : Rat))
    timestamp :=
      if zTruthy post.created_utc then
        some (epochMsToIso (zOr post.created_utc 0 * 1000))
      else
        jsOrS (jsOrS post.created post.timestamp) (some now)
    url := jsOrS (jsOrS post.url post.permalink)
      (match post.id with
       | some s => if s = "" then some "#" else some ("https://reddit.com/comments/" ++ s)
       | none => some "#")
    author := jsOrS (jsOrS post.author post.author_name) (some "Unknown")
    platform := none
    thumbnail := none }

/-- `ScrapeCreatorsService.formatYouTubePost` (lines 296-314).  The raw
metrics pass through `parseInt`, the identity on the integer counts modelled
here. -/
def formatYouTubePost (now nonce : String) (video : YouTubeRaw) : CanonicalRecord :=
  let views : Int := zOr (jsOrZ (jsOrZ video.viewCount video.views) video.view_count) 0
  let likes : Int := zOr (jsOrZ (jsOrZ video.likeCount video.likes) video.like_count) 0
  let comments : Int :=
    zOr (jsOrZ (jsOrZ video.commentCount video.comments) video.comment_count) 0
  let engagement : Rat := (views : Rat) * (1/100) + (likes : Rat) + (comments : Rat)
  let videoId : Option String := jsOrS (jsOrS video.id video.videoId) video.video_id
  { id := jsOrS videoId (some ("youtube_" ++ nonce))
    content := jsOrS (jsOrS (jsOrS video.title video.snippetTitle) video.description)
      (some "")
    source := jsOrS (jsOrS (jsOrS (jsOrS video.channelTitle video.channel)
      video.channel_title) video.author) (some "YouTube")
    engagement := some (jsRound engagement)
    timestamp := jsOrS (jsOrS (jsOrS video.publishedAt video.published_at)
      video.upload_date) (some now)
    url := jsOrS video.url
      (match videoId with
       | some s => if s = "" then some "#" else some ("https://youtube.com/watch?v=" ++ s)
       | none => some "#")
    author := jsOrS (jsOrS (jsOrS (jsOrS video.channelTitle video.channel)
      video.channel_title) video.author) (some "Unknown")
    platform := none
    thumbnail := none }

/-- `ScrapeCreatorsService.formatThreadsPost` (lines 319-334). -/
def formatThreadsPost (now nonce : String) (post : ThreadsRaw) : CanonicalRecord :=
  let engagement : Int :=
    zOr (jsOrZ post.likes post.like_count) 0 +
    zOr (jsOrZ (jsOrZ post.replies post.comments) post.reply_count) 0 +
    zOr (jsOrZ (jsOrZ post.reposts post.repost_count) post.shares) 0
  { id := jsOrS (jsOrS post.id post.post_id) (some ("threads_" ++ nonce))
    content := jsOrS (jsOrS (jsOrS (jsOrS post.text post.content) post.caption)
      post.body) (some "")
    source :=
      match post.username with
      | some s => if s = "" then jsOrS post.author (some "Threads")
                  else some ("@" ++ s)
      | none => jsOrS post.author (some "Threads")
    engagement := some (jsRound (engagement : Rat))
    timestamp := jsOrS (jsOrS (jsOrS post.created_at post.timestamp) post.posted_at)
      (some now)
    url := jsOrS (jsOrS (jsOrS post.url post.permalink) post.post_url) (some "#")
    author := jsOrS (jsOrS (jsOrS post.username post.author) post.user) (some "Unknown")
    platform := none
    thumbnail := none }

/-! ### Payload extraction and per-platform adapters -/

/-- The probed keys of the nested `data` object
(`data.data?.posts` and friends, lines 238-249).  A field is `some xs`
exactly when the key is present and holds an array. -/
structure ApiDataField (α : Type) where
  asArray : Option (List α) := none
  posts : Option (List α) := none
  results : Option (List α) := none
  videos : Option (List α) := none
  items : Option (List α) := none
deriving Repr, DecidableEq

/-- The probed keys of a response body (lines 215-253).  `asArray` is `some`
when the body itself is an array; `dataField` is the `data` key, which may in
turn be an array or carry the nested keys. -/
structure ApiPayload (α : Type) where
  asArray : Option (List α) := none
  dataField : Option (ApiDataField α) := none
  posts : Option (List α) := none
  results : Option (List α) := none
  videos : Option (List α) := none
  items : Option (List α) := none
deriving Repr, DecidableEq

/-- `ScrapeCreatorsService.extractPostsFromResponse` (lines 215-253): probes
the candidate shapes in source order, returns `[]` when the body is nullish
or no shape matches. -/
def extractPostsFromResponse {α : Type} (data : Option (ApiPayload α)) : List α :=
  match data with
  | none => []
  | some p =>
    match p.asArray with
    | some xs => xs
    | none =>
    match p.dataField.bind (·.asArray) with
    | some xs => xs
    | none =>
    match p.posts with
    | some xs => xs
    | none =>
    match p.results with
    | some xs => xs
    | none =>
    match p.videos with
    | some xs => xs
    | none =>
    match p.items with
    | some xs => xs
    | none =>
    match p.dataField.bind (·.posts) with
    | some xs => xs
    | none =>
    match p.dataField.bind (·.results) with
    | some xs => xs
    | none =>
    match p.dataField.bind (·.videos) with
    | some xs => xs
    | none =>
    match p.dataField.bind (·.items) with
    | some xs => xs
    | none => []

/-- `ScrapeCreatorsService.searchReddit` (lines 105-136).  `outcome` is what
the axios GET produced: `.error` for any thrown transport/HTTP failure,
`.ok body` for a delivered body.  Every failure path returns `[]`.
`nonce` stands for the per-item fallback-id token; the claims below never
rely on its uniqueness. -/
def searchReddit (now nonce : String)
    (outcome : Except String (Option (ApiPayload RedditRaw))) : List CanonicalRecord :=
  match outcome with
  | .error _ => []
  | .ok body =>
    let posts := extractPostsFromResponse body
    if posts.isEmpty then []
    else posts.map (formatRedditPost now nonce)

/-- `ScrapeCreatorsService.searchYouTube` (lines 142-173). -/
def searchYouTube (now nonce : String)
    (outcome : Except String (Option (ApiPayload YouTubeRaw))) : List CanonicalRecord :=
  match outcome with
  | .error _ => []
  | .ok body =>
    let videos := extractPostsFromResponse body
    if videos.isEmpty then []
    else videos.map (formatYouTubePost now nonce)

/-- `ScrapeCreatorsService.searchThreads` (lines 179-210). -/
def searchThreads (now nonce : String)
    (outcome : Except String (Option (ApiPayload ThreadsRaw))) : List CanonicalRecord :=
  match outcome with
  | .error _ => []
  | .ok body =>
    let posts := extractPostsFromResponse body
    if posts.isEmpty then []
    else posts.map (formatThreadsPost now nonce)

/-- The network outcomes one orchestrator invocation can observe, one per
platform endpoint. -/
structure PlatformNet where
  reddit : Except String (Option (ApiPayload RedditRaw))
  youtube : Except String (Option (ApiPayload YouTubeRaw))
  threads : Except String (Option (ApiPayload ThreadsRaw))

/-- `ScrapeCreatorsService.searchPlatform` (lines 72-99): lower-cases the
platform name and dispatches; `x`/`twitter`/`linkedin` and unknown names log
a warning and return `[]`. -/
def searchPlatform (now nonce : String) (net : PlatformNet) (platform : String) :
    List CanonicalRecord :=
  match platform.toLower with
  | "reddit" => searchReddit now nonce net.reddit
  | "youtube" => searchYouTube now nonce net.youtube
  | "threads" => searchThreads now nonce net.threads
  | _ => []

/-- The sort comparator of line 61, `(b.engagement || 0) - (a.engagement || 0)`,
as the `le` relation of a stable sort: `a` may precede `b` iff the comparator
is ≤ 0 on `(a, b)`. -/
def engagementLE (a b : CanonicalRecord) : Bool :=
  zOr b.engagement 0 ≤ zOr a.engagement 0

/-- The per-platform async arrow of lines 40-52: on success, each post gets
the `platform` key spread in; a thrown error is caught and contributes `[]`. -/
def platformContribution (fetch : String → Except String (List CanonicalRecord))
    (platform : String) : List CanonicalRecord :=
  match fetch platform with
  | .ok posts => posts.map fun post => { post with platform := some platform }
  | .error _ => []

/-- `ScrapeCreatorsService.searchPosts` (lines 27-67), with its trace.
`fetch platform` is the settled outcome of the awaited
`this.searchPlatform(platform, query, maxResults)` call launched for that
platform: `.ok` with its records, or `.error` when it threw (caught at line
48, contributing `[]`).  The second component records which platforms the
`platforms.map` of line 40 dispatched `searchPlatform` for: none when the
key check of line 31 throws first, all of them otherwise.  `Promise.all`
(line 54) returns per-promise results in launch order regardless of
completion order, so the concatenation below is in requested-platform order;
nothing in the remaining body can throw, so the outer catch of lines 63-66
is not represented. -/
def searchPostsT (apiKey : Option String)
    (fetch : String → Except String (List CanonicalRecord))
    (platforms : List String) :
    Except String (List CanonicalRecord) × List String :=
  if strTruthy apiKey = false then
    (.error "ScrapeCreators API key not configured", [])
  else
    let results := platforms.map (platformContribution fetch)
    (.ok (List.mergeSort results.flatten engagementLE), platforms)

/-- The value `searchPosts` returns or raises (first component of
`searchPostsT`). -/
def searchPosts (apiKey : Option String)
    (fetch : String → Except String (List CanonicalRecord))
    (platforms : List String) : Except String (List CanonicalRecord) :=
  (searchPostsT apiKey fetch platforms).1

example :
    (formatRedditPost "t" "n" { score := some 10, num_comments := some 5 }).engagement
      = some 15 := by
  simp [formatRedditPost, jsOrZ, zOr]
  norm_num [jsRound]
example :
    (formatYouTubePost "t" "n"
      { views := some 10000, likes := some 50, comments := some 10 }).engagement
      = some 160 := by
  simp [formatYouTubePost, jsOrZ, zOr]
  norm_num [jsRound]
example :
    (formatRedditPost "t" "n" { score := some (-5) }).engagement = some (-5) := by
  simp [formatRedditPost, jsOrZ, zOr]
  norm_num [jsRound]

/-! ### Spec-side engagement formulas

For the engagement-formula claims, a second set of definitions follows the
spec text (§4.2: fields are "drawn from the first populated of several known
aliases per metric"; a field holding `0` is as unpopulated as an absent one,
matching the spec's falsy-alias reading).  They are compared with the
formatter definitions above, which were translated from the source. -/

/-- Spec wording: the first populated of two aliases of a metric, `0` when
neither is populated. -/
def firstPopulated2 (a b : Option Int) : Int :=
  if zTruthy a then a.getD 0 else if zTruthy b then b.getD 0 else 0

/-- Spec wording: the first populated of three aliases of a metric. -/
def firstPopulated3 (a b c : Option Int) : Int :=
  if zTruthy a then a.getD 0
  else if zTruthy b then b.getD 0
  else if zTruthy c then c.getD 0
  else 0

/-- Spec §4.2: Reddit engagement is `score (or ups) + num_comments (or
comments)`, rounded. -/
def specRedditEngagement (post : RedditRaw) : Int :=
  jsRound ((firstPopulated2 post.score post.ups
    + firstPopulated2 post.num_comments post.comments : Int) : Rat)

/-- Spec §4.2: YouTube engagement is `0.01 * views + likes + comments`,
rounded to the nearest integer. -/
def specYouTubeEngagement (video : YouTubeRaw) : Int :=
  jsRound ((1/100 : Rat)
      * (firstPopulated3 video.viewCount video.views video.view_count : Int)
    + (firstPopulated3 video.likeCount video.likes video.like_count : Int)
    + (firstPopulated3 video.commentCount video.comments video.comment_count : Int))

/-- The code's two-alias `|| 0` chain agrees with the spec's first-populated
clause. -/
theorem zOr_jsOrZ_eq_firstPopulated2 (a b : Option Int) :
    zOr (jsOrZ a b) 0 = firstPopulated2 a b := by
  rcases a with _ | n <;> rcases b with _ | m
  · rfl
  · by_cases hm : m = 0 <;> simp [zOr, jsOrZ, firstPopulated2, zTruthy, hm]
  · by_cases hn : n = 0 <;> simp [zOr, jsOrZ, firstPopulated2, zTruthy, hn]
  · by_cases hn : n = 0 <;> by_cases hm : m = 0 <;>
      simp [zOr, jsOrZ, firstPopulated2, zTruthy, hn, hm]

/-- The code's three-alias `|| 0` chain agrees with the spec's
first-populated clause. -/
theorem zOr_jsOrZ3_eq_firstPopulated3 (a b c : Option Int) :
    zOr (jsOrZ (jsOrZ a b) c) 0 = firstPopulated3 a b c := by
  rw [zOr_jsOrZ_eq_firstPopulated2]
  rcases a with _ | n
  · simp [jsOrZ, firstPopulated2, firstPopulated3, zTruthy]
  · by_cases hn : n = 0 <;> simp [jsOrZ, firstPopulated2, firstPopulated3, zTruthy, hn]

/-! ### Helper lemmas -/

/-- A number-or-undefined field is non-negative in the JS sense: absent, or
holding a non-negative value. -/
def optNonneg (v : Option Int) : Prop := 0 ≤ v.getD 0

theorem zOr_jsOrZ_nonneg {a b : Option Int} (ha : optNonneg a) (hb : optNonneg b) :
    0 ≤ zOr (jsOrZ a b) 0 := by
  rw [zOr_jsOrZ_eq_firstPopulated2]
  unfold firstPopulated2
  split
  · exact ha
  · split
    · exact hb
    · exact le_refl 0

theorem zOr_jsOrZ3_nonneg {a b c : Option Int}
    (ha : optNonneg a) (hb : optNonneg b) (hc : optNonneg c) :
    0 ≤ zOr (jsOrZ (jsOrZ a b) c) 0 := by
  rw [zOr_jsOrZ3_eq_firstPopulated3]
  unfold firstPopulated3
  split
  · exact ha
  · split
    · exact hb
    · split
      · exact hc
      · exact le_refl 0

theorem jsOrS_isSome {a b : Option String} (h : b.isSome) : (jsOrS a b).isSome := by
  cases a with
  | none => simpa [jsOrS]
  | some s =>
    by_cases hs : s = "" <;> simp [jsOrS, hs, h]

/-! ## Claims -/

/-- C1: the claim says that when both providers fail, `AIClient.call` raises
exactly one aggregated failure whose message contains both failure reasons.
The code does not: whenever the backup fails on the non-forced path — whether
or not the primary was attempted — evaluating the log template of line 43
dereferences the out-of-scope `groqError` and the call raises
`ReferenceError: groqError is not defined`, an error carrying neither
provider's reason; the aggregated `Error` of line 44 (which would mention
only the backup reason anyway) is never constructed.  This theorem evaluates
the model at a both-fail input and shows the outcome is the same
`ReferenceError` for every pair of failure messages. -/
theorem aiFallback_bothFail_raisesReferenceError :
    AIClient.call false true (.error "Groq API error: 503 - down")
        (.error "Ollama API error: 500 - down") = .refErr "groqError" ∧
    (∀ groqMsg ollamaMsg : String,
      AIClient.call false true (.error groqMsg) (.error ollamaMsg)
        = .refErr "groqError") ∧
    (∀ groqMsg ollamaMsg : String,
      AIClient.call false false (.error groqMsg) (.error ollamaMsg)
        = .refErr "groqError") := by
  refine ⟨rfl, fun _ _ => rfl, fun _ _ => rfl⟩

/-- C7: for every raw Reddit item the formatter's engagement equals the
spec's formula — the first populated of `score`/`ups` plus the first
populated of `num_comments`/`comments`, rounded — and the concrete payload
`score=10, num_comments=5` yields engagement 15. -/
theorem redditEngagementFormula :
    (∀ now nonce post, (formatRedditPost now nonce post).engagement
      = some (specRedditEngagement post)) ∧
    (formatRedditPost "t" "n"
      { score := some 10, num_comments := some 5 }).engagement = some 15 := by
  constructor
  · intro now nonce post
    simp [formatRedditPost, specRedditEngagement, zOr_jsOrZ_eq_firstPopulated2]
  · simp [formatRedditPost, jsOrZ, zOr]
    norm_num [jsRound]

/-- C8: for every raw YouTube item the formatter's engagement equals the
spec's formula `round(0.01 * views + likes + comments)`, each metric drawn
from the first populated of its aliases, and the concrete payload
`views=10000, likes=50, comments=10` yields engagement 160. -/
theorem youtubeEngagementFormula :
    (∀ now nonce video, (formatYouTubePost now nonce video).engagement
      = some (specYouTubeEngagement video)) ∧
    (formatYouTubePost "t" "n"
      { views := some 10000, likes := some 50, comments := some 10 }).engagement
      = some 160 := by
  constructor
  · intro now nonce video
    simp [formatYouTubePost, specYouTubeEngagement, zOr_jsOrZ3_eq_firstPopulated3,
      mul_comm]
  · simp [formatYouTubePost, jsOrZ, zOr]
    norm_num [jsRound]

/-- C10: passing `temperature 0` or `max_tokens 0` to either provider client
builds the same request body as omitting the option — JS `||` treats `0` as
falsy, so `0` is replaced by the defaults `0.3` and `2000`. -/
theorem aiOptions_zeroMeansDefault :
    ∀ (prompt : String) (t m : Option Rat) (f : Bool),
      GroqClient.requestBody prompt ⟨some 0, m, f⟩
        = GroqClient.requestBody prompt ⟨none, m, f⟩ ∧
      GroqClient.requestBody prompt ⟨t, some 0, f⟩
        = GroqClient.requestBody prompt ⟨t, none, f⟩ ∧
      OllamaClient.requestBody prompt ⟨some 0, m, f⟩
        = OllamaClient.requestBody prompt ⟨none, m, f⟩ ∧
      OllamaClient.requestBody prompt ⟨t, some 0, f⟩
        = OllamaClient.requestBody prompt ⟨t, none, f⟩ ∧
      (GroqClient.requestBody prompt ⟨some 0, some 0, f⟩).temperature = 3/10 ∧
      (GroqClient.requestBody prompt ⟨some 0, some 0, f⟩).max_tokens = 2000 ∧
      (OllamaClient.requestBody prompt ⟨some 0, some 0, f⟩).temperature = 3/10 ∧
      (OllamaClient.requestBody prompt ⟨some 0, some 0, f⟩).max_tokens = 2000 := by
  intro prompt t m f
  refine ⟨?_, ?_, ?_, ?_, ?_, ?_, ?_, ?_⟩ <;>
    simp [GroqClient.requestBody, OllamaClient.requestBody, qOr]

/-- C9 counterexample: the claim says every produced record's engagement is a
non-negative integer, but Reddit scores may be negative and the formula
passes them through: `score = -5` with no other metric yields
engagement `-5`. -/
theorem engagementNonnegative_cex :
    (formatRedditPost "t" "n" { score := some (-5) }).engagement = some (-5) ∧
    ¬ (0 ≤ (-5 : Int)) := by
  constructor
  · simp [formatRedditPost, jsOrZ, zOr]
    norm_num [jsRound]
  · decide

/-- C9 amended: for every raw item of every platform the engagement field is
a defined integer, and it is non-negative whenever all the raw metric fields
the formula reads are non-negative (absent fields count as 0). -/
theorem engagementIntNonneg_amended :
    (∀ now nonce (post : RedditRaw),
      optNonneg post.score → optNonneg post.ups →
      optNonneg post.num_comments → optNonneg post.comments →
      ∃ e : Int, (formatRedditPost now nonce post).engagement = some e ∧ 0 ≤ e) ∧
    (∀ now nonce (video : YouTubeRaw),
      optNonneg video.viewCount → optNonneg video.views →
      optNonneg video.view_count →
      optNonneg video.likeCount → optNonneg video.likes →
      optNonneg video.like_count →
      optNonneg video.commentCount → optNonneg video.comments →
      optNonneg video.comment_count →
      ∃ e : Int, (formatYouTubePost now nonce video).engagement = some e ∧ 0 ≤ e) ∧
    (∀ now nonce (post : ThreadsRaw),
      optNonneg post.likes → optNonneg post.like_count →
      optNonneg post.replies → optNonneg post.comments →
      optNonneg post.reply_count →
      optNonneg post.reposts → optNonneg post.repost_count →
      optNonneg post.shares →
      ∃ e : Int, (formatThreadsPost now nonce post).engagement = some e ∧ 0 ≤ e) := by
  refine ⟨?_, ?_, ?_⟩
  · intro now nonce post h1 h2 h3 h4
    have he : (formatRedditPost now nonce post).engagement
        = some (jsRound ((zOr (jsOrZ post.score post.ups) 0
          + zOr (jsOrZ post.num_comments post.comments) 0 : Int) : Rat)) := by
      simp [formatRedditPost]
    refine ⟨_, he, jsRound_nonneg ?_⟩
    exact_mod_cast add_nonneg (zOr_jsOrZ_nonneg h1 h2) (zOr_jsOrZ_nonneg h3 h4)
  · intro now nonce video h1 h2 h3 h4 h5 h6 h7 h8 h9
    have he : (formatYouTubePost now nonce video).engagement
        = some (jsRound
          ((zOr (jsOrZ (jsOrZ video.viewCount video.views) video.view_count) 0 : Int)
              * (1/100)
            + (zOr (jsOrZ (jsOrZ video.likeCount video.likes) video.like_count) 0 : Int)
            + (zOr (jsOrZ (jsOrZ video.commentCount video.comments)
                video.comment_count) 0 : Int))) := by
      simp [formatYouTubePost]
    refine ⟨_, he, jsRound_nonneg ?_⟩
    have hv : (0 : Rat) ≤
        (zOr (jsOrZ (jsOrZ video.viewCount video.views) video.view_count) 0 : Int) := by
      exact_mod_cast zOr_jsOrZ3_nonneg h1 h2 h3
    have hl : (0 : Rat) ≤
        (zOr (jsOrZ (jsOrZ video.likeCount video.likes) video.like_count) 0 : Int) := by
      exact_mod_cast zOr_jsOrZ3_nonneg h4 h5 h6
    have hc : (0 : Rat) ≤
        (zOr (jsOrZ (jsOrZ video.commentCount video.comments)
          video.comment_count) 0 : Int) := by
      exact_mod_cast zOr_jsOrZ3_nonneg h7 h8 h9
    have : (0 : Rat) ≤
        (zOr (jsOrZ (jsOrZ video.viewCount video.views) video.view_count) 0 : Int)
          * (1/100) :=
      mul_nonneg hv (by norm_num)
    linarith
  · intro now nonce post h1 h2 h3 h4 h5 h6 h7 h8
    have he : (formatThreadsPost now nonce post).engagement
        = some (jsRound ((zOr (jsOrZ post.likes post.like_count) 0
          + zOr (jsOrZ (jsOrZ post.replies post.comments) post.reply_count) 0
          + zOr (jsOrZ (jsOrZ post.reposts post.repost_count) post.shares) 0
            : Int) : Rat)) := by
      simp [formatThreadsPost]
    refine ⟨_, he, jsRound_nonneg ?_⟩
    exact_mod_cast add_nonneg (add_nonneg (zOr_jsOrZ_nonneg h1 h2)
      (zOr_jsOrZ3_nonneg h3 h4 h5)) (zOr_jsOrZ3_nonneg h6 h7 h8)

/-- C9 amended, witness: all three formatters at concrete non-negative
payloads produce a defined non-negative engagement. -/
theorem engagementIntNonneg_amended_witness :
    (∃ e : Int, (formatRedditPost "t" "n"
      { score := some 3, num_comments := some 2 }).engagement = some e ∧ 0 ≤ e) ∧
    (∃ e : Int, (formatYouTubePost "t" "n"
      { views := some 100, likes := some 1 }).engagement = some e ∧ 0 ≤ e) ∧
    (∃ e : Int, (formatThreadsPost "t" "n"
      { likes := some 7 }).engagement = some e ∧ 0 ≤ e) :=
  ⟨engagementIntNonneg_amended.1 "t" "n" _
      (by unfold optNonneg; decide) (by unfold optNonneg; decide) (by unfold optNonneg; decide) (by unfold optNonneg; decide),
   engagementIntNonneg_amended.2.1 "t" "n" _
      (by unfold optNonneg; decide) (by unfold optNonneg; decide) (by unfold optNonneg; decide) (by unfold optNonneg; decide) (by unfold optNonneg; decide)
      (by unfold optNonneg; decide) (by unfold optNonneg; decide) (by unfold optNonneg; decide) (by unfold optNonneg; decide),
   engagementIntNonneg_amended.2.2 "t" "n" _
      (by unfold optNonneg; decide) (by unfold optNonneg; decide) (by unfold optNonneg; decide) (by unfold optNonneg; decide)
      (by unfold optNonneg; decide) (by unfold optNonneg; decide) (by unfold optNonneg; decide) (by unfold optNonneg; decide)⟩

/-- Specialization of `jsOrS_isSome` to a literal default. -/
theorem jsOrS_some_isSome (a : Option String) (d : String) :
    (jsOrS a (some d)).isSome := jsOrS_isSome rfl

/-- The source-label pattern shared by the Reddit and Threads formatters:
a ternary on a handle field, falling back to `alias || literal`. -/
theorem sourceMatch_isSome (o fb : Option String) (d : String) (f : String → String) :
    (match o with
     | some s => if s = "" then jsOrS fb (some d) else some (f s)
     | none => jsOrS fb (some d)).isSome := by
  rcases o with _ | s
  · exact jsOrS_some_isSome _ _
  · by_cases hs : s = "" <;> simp [hs, jsOrS_some_isSome]

/-- The url-fallback pattern: a ternary on the provider id defaulting to
the placeholder. -/
theorem urlMatch_isSome (pre : String) (o : Option String) :
    (match o with
     | some s => if s = "" then some "#" else some (pre ++ s)
     | none => (some "#" : Option String)).isSome := by
  rcases o with _ | s
  · rfl
  · by_cases hs : s = "" <;> simp [hs]

theorem ite_some_isSome {c : Prop} [Decidable c] {x : String} {y : Option String}
    (hy : y.isSome) : (if c then some x else y).isSome := by
  split
  · rfl
  · exact hy

/-- Every canonical field except `thumbnail` is a defined (non-nullish)
value, and `thumbnail` is the undefined read of a key the object literal
never assigns. -/
def definedExceptThumbnail (r : CanonicalRecord) : Prop :=
  r.id.isSome ∧ r.content.isSome ∧ r.source.isSome ∧ r.engagement.isSome ∧
  r.timestamp.isSome ∧ r.url.isSome ∧ r.author.isSome ∧ r.platform.isSome ∧
  r.thumbnail = none

/-- C5 counterexample: the claim says every record produced by the
orchestrator has a non-null `thumbnail`; but the formatters' object literals
have no `thumbnail` key at all, so the record the orchestrator returns for a
one-item Reddit response reads `thumbnail` as `undefined`. -/
theorem thumbnailUndefined_cex :
    searchPosts (some "k") (fun _ => .ok [formatRedditPost "t" "n" {}]) ["reddit"]
      = .ok [{ formatRedditPost "t" "n" {} with platform := some "reddit" }] ∧
    ({ formatRedditPost "t" "n" {} with platform := some "reddit" }
      : CanonicalRecord).thumbnail = none := by
  constructor
  · simp [searchPosts, searchPostsT, platformContribution, strTruthy]
  · rfl

/-- C5 amended: every record the orchestrator produces (any formatter output
with the `platform` tag spread in) has defined, non-nullish values for id,
content, source, engagement, timestamp, url, author and platform — each
fallback chain ends in a literal default — but its `thumbnail` is undefined,
not an empty string. -/
theorem canonicalFieldsDefined_amended :
    ∀ now nonce platform,
      (∀ post : RedditRaw, definedExceptThumbnail
        { formatRedditPost now nonce post with platform := some platform }) ∧
      (∀ video : YouTubeRaw, definedExceptThumbnail
        { formatYouTubePost now nonce video with platform := some platform }) ∧
      (∀ post : ThreadsRaw, definedExceptThumbnail
        { formatThreadsPost now nonce post with platform := some platform }) := by
  intro now nonce platform
  refine ⟨fun post => ?_, fun video => ?_, fun post => ?_⟩
  · refine ⟨jsOrS_some_isSome _ _, jsOrS_some_isSome _ _,
      sourceMatch_isSome post.subreddit post.subreddit_name_prefixed "Reddit"
        (fun s => "r/" ++ s),
      rfl,
      ite_some_isSome (jsOrS_some_isSome _ _),
      jsOrS_isSome (urlMatch_isSome "https://reddit.com/comments/" post.id),
      jsOrS_some_isSome _ _, rfl, rfl⟩
  · refine ⟨jsOrS_some_isSome _ _, jsOrS_some_isSome _ _, jsOrS_some_isSome _ _,
      rfl,
      jsOrS_some_isSome _ _,
      jsOrS_isSome (urlMatch_isSome "https://youtube.com/watch?v="
        (jsOrS (jsOrS video.id video.videoId) video.video_id)),
      jsOrS_some_isSome _ _, rfl, rfl⟩
  · refine ⟨jsOrS_some_isSome _ _, jsOrS_some_isSome _ _,
      sourceMatch_isSome post.username post.author "Threads" (fun s => "@" ++ s),
      rfl,
      jsOrS_some_isSome _ _,
      jsOrS_some_isSome _ _,
      jsOrS_some_isSome _ _, rfl, rfl⟩

/-- The Groq generated-text field path
`response.data.choices[0].message.content`, `none` when any step is
absent. -/
def groqContentPath (d : Option GroqData) : Option String :=
  match d with
  | none => none
  | some dd =>
    match dd.choices with
    | none => none
    | some [] => none
    | some (c :: _) =>
      match c.message with
      | none => none
      | some m => m.content

/-- C6 counterexample: the claim says an empty generated-text field is
treated as a failure by each provider, but a Groq reply whose
`choices[0].message.content` is `""` passes the shape check (which only
tests `data`, `choices` and `choices[0]`) and is returned as an empty
success. -/
theorem groqEmptySuccess_cex :
    GroqClient.call (some "k")
      (.resolved 200 (some ⟨some [⟨some ⟨some ""⟩⟩], none⟩)) = .ok "" := rfl

/-- C6 amended: a malformed response (missing generated-text field path) is
a failure for both providers, and an empty generated-text string is a
failure for Ollama (`!response.data.response` is true of `""`); Groq alone
returns a present-but-empty content string as an empty success. -/
theorem aiResponseValidity_amended :
    (∀ (baseUrl : String) (status : Int) (d : Option OllamaData),
      (d.bind OllamaData.response = none ∨ d.bind OllamaData.response = some "") →
      (OllamaClient.call baseUrl (.resolved status d)).isOk = false) ∧
    (∀ (apiKey : Option String) (status : Int) (d : Option GroqData),
      groqContentPath d = none →
      (GroqClient.call apiKey (.resolved status d)).isOk = false) ∧
    (∀ apiKey : Option String, strTruthy apiKey = true →
      GroqClient.call apiKey
        (.resolved 200 (some ⟨some [⟨some ⟨some ""⟩⟩], none⟩)) = .ok "") := by
  refine ⟨?_, ?_, ?_⟩
  · intro baseUrl status d h
    rcases d with _ | dd
    · simp only [OllamaClient.call]
      split
      · split <;> rfl
      · rfl
    · rcases hs : dd.response with _ | s
      · simp only [OllamaClient.call]
        split
        · split <;> rfl
        · simp [hs, Except.isOk, Except.toBool]
      · have hs0 : s = "" := by
          rcases h with h | h <;> simp only [Option.bind, hs] at h
          · exact absurd h (by simp)
          · exact Option.some_injective _ h
        simp only [OllamaClient.call]
        split
        · split <;> rfl
        · simp [hs, hs0, Except.isOk, Except.toBool]
  · intro apiKey status d h
    simp only [GroqClient.call]
    split
    · rfl
    · split
      · rfl
      · rcases d with _ | dd
        · rfl
        · rcases hc : dd.choices with _ | cs
          · simp [hc, Except.isOk, Except.toBool]
          · rcases cs with _ | ⟨c, rest⟩
            · simp [hc, Except.isOk, Except.toBool]
            · rcases hm : c.message with _ | m
              · simp [hc, hm, Except.isOk, Except.toBool]
              · rcases hcon : m.content with _ | s
                · simp [hc, hm, hcon, Except.isOk, Except.toBool]
                · exfalso
                  simp [groqContentPath, hc, hm, hcon] at h
  · intro apiKey hk
    simp only [GroqClient.call, hk]
    rfl

/-- C6 amended, witness: an empty Ollama `response` field and an empty Groq
`choices` array are rejected, while an empty Groq content string is an empty
success. -/
theorem aiResponseValidity_amended_witness :
    ((OllamaClient.call "u" (.resolved 200 (some ⟨some "", none⟩))).isOk = false) ∧
    ((GroqClient.call (some "k") (.resolved 200 (some ⟨some [], none⟩))).isOk
      = false) ∧
    (GroqClient.call (some "k")
      (.resolved 200 (some ⟨some [⟨some ⟨some ""⟩⟩], none⟩)) = .ok "") :=
  ⟨aiResponseValidity_amended.1 "u" 200 _ (Or.inr rfl),
   aiResponseValidity_amended.2.1 (some "k") 200 _ rfl,
   aiResponseValidity_amended.2.2 (some "k") (by decide)⟩

/-- C3: the missing-credential check is the only raise in `searchPosts`:
with a falsy API key it raises the configuration error before any
`searchPlatform` dispatch (the trace is empty); with a truthy key it
returns `.ok` for every fetch behaviour and every platform list, after
dispatching exactly the requested platforms. -/
theorem searchPosts_configErrorOnly :
    ∀ (apiKey : Option String)
      (fetch : String → Except String (List CanonicalRecord))
      (platforms : List String),
      (strTruthy apiKey = false →
        searchPostsT apiKey fetch platforms
          = (.error "ScrapeCreators API key not configured", [])) ∧
      (strTruthy apiKey = true →
        ∃ l, searchPostsT apiKey fetch platforms = (.ok l, platforms)) := by
  intro apiKey fetch platforms
  constructor
  · intro h
    simp [searchPostsT, h]
  · intro h
    exact ⟨List.mergeSort ((platforms.map (platformContribution fetch)).flatten)
      engagementLE, by simp [searchPostsT, h]⟩

/-- C3 witness: with no key the call errors with an empty dispatch trace;
with a key it succeeds. -/
theorem searchPosts_configErrorOnly_witness :
    (searchPostsT none (fun _ => .ok []) ["reddit"]
      = (.error "ScrapeCreators API key not configured", [])) ∧
    (∃ l, searchPostsT (some "k") (fun _ => .ok []) ["reddit"]
      = (.ok l, ["reddit"])) :=
  ⟨(searchPosts_configErrorOnly none _ _).1 rfl,
   (searchPosts_configErrorOnly (some "k") _ _).2 (by decide)⟩

/-- Concatenating per-platform contributions where one designated platform
contributes `[]` equals concatenating the other platforms' lists. -/
theorem flatten_map_eq_filter_flatMap {α β : Type} [DecidableEq α]
    (l : List α) (pf : α) (contrib g : α → List β)
    (h : ∀ p ∈ l, contrib p = if p = pf then [] else g p) :
    (l.map contrib).flatten = (l.filter (fun p => p != pf)).flatMap g := by
  induction l with
  | nil => simp
  | cons a t ih =>
    have ha := h a (List.mem_cons_self a t)
    have ht : ∀ p ∈ t, contrib p = if p = pf then [] else g p :=
      fun p hp => h p (List.mem_cons_of_mem a hp)
    by_cases hap : a = pf
    · subst hap
      have ha0 : contrib a = [] := ha.trans (if_pos rfl)
      simp [List.filter_cons, ha0, ih ht]
    · have ha1 : contrib a = g a := ha.trans (if_neg hap)
      simp [List.filter_cons, hap, ha1, ih ht]

/-- C2: with a configured key, if exactly one requested platform's adapter
call fails while the others succeed, `searchPosts` still returns `.ok` with
a permutation (the engagement-sorted merge) of the other platforms' tagged
records — the failing platform contributes nothing and no error reaches the
caller. -/
theorem searchPosts_partialFailureIsolation :
    ∀ (apiKey : Option String)
      (fetch : String → Except String (List CanonicalRecord))
      (ok : String → List CanonicalRecord)
      (platforms : List String) (pf : String),
      strTruthy apiKey = true →
      2 ≤ platforms.length →
      platforms.Nodup →
      pf ∈ platforms →
      (∃ e, fetch pf = .error e) →
      (∀ p ∈ platforms, p ≠ pf → fetch p = .ok (ok p)) →
      ∃ out, searchPosts apiKey fetch platforms = .ok out ∧
        out.Perm ((platforms.filter (fun p => p != pf)).flatMap
          (fun p => (ok p).map fun post => { post with platform := some p })) := by
  intro apiKey fetch ok platforms pf hk hlen hnd hmem hfail hok
  obtain ⟨e, he⟩ := hfail
  have hmain : searchPosts apiKey fetch platforms
      = .ok (List.mergeSort
          ((platforms.map (platformContribution fetch)).flatten) engagementLE) := by
    simp [searchPosts, searchPostsT, hk]
  refine ⟨_, hmain, ?_⟩
  have heq : ((platforms.map (platformContribution fetch)).flatten)
      = (platforms.filter (fun p => p != pf)).flatMap
        (fun p => (ok p).map fun post => { post with platform := some p }) := by
    apply flatten_map_eq_filter_flatMap
    intro p hp
    by_cases hppf : p = pf
    · subst hppf
      simp [platformContribution, he]
    · simp [platformContribution, hok p hp hppf, hppf]
  exact heq ▸ List.mergeSort_perm _ engagementLE

/-- C2 witness: two requested platforms, the second failing with a timeout;
the call succeeds with the (empty) contribution of the surviving
platform. -/
theorem searchPosts_partialFailureIsolation_witness :
    ∃ out, searchPosts (some "k")
        (fun p => if p = "youtube" then .error "timeout" else .ok [])
        ["reddit", "youtube"] = .ok out ∧
      out.Perm (((["reddit", "youtube"] : List String).filter
          (fun p => p != "youtube")).flatMap
        (fun p => (([] : List CanonicalRecord)).map
          fun post => { post with platform := some p })) :=
  searchPosts_partialFailureIsolation (some "k") _ (fun _ => [])
    ["reddit", "youtube"] "youtube"
    (by decide) (by decide) (by decide) (by decide)
    ⟨"timeout", if_pos rfl⟩
    (fun p hp hne => if_neg hne)

theorem engagementLE_trans :
    ∀ a b c : CanonicalRecord, engagementLE a b → engagementLE b c → engagementLE a c := by
  intro a b c hab hbc
  simp only [engagementLE, decide_eq_true_eq] at hab hbc ⊢
  omega

theorem engagementLE_total :
    ∀ a b : CanonicalRecord, engagementLE a b || engagementLE b a := by
  intro a b
  simp only [engagementLE, Bool.or_eq_true, decide_eq_true_eq]
  omega

/-- C4: with a configured key, the list `searchPosts` returns is exactly the
stable merge sort, under the descending-engagement comparator, of the
per-platform contributions concatenated in requested-platform order (the
order `Promise.all` preserves, independent of completion order).  Hence it
is a permutation of that concatenation, is sorted by non-increasing
`engagement || 0`, and any two records with equal engagement keep their
concatenation (insertion) order. -/
theorem searchPosts_orderIsStableEngagementSort :
    ∀ (apiKey : Option String)
      (fetch : String → Except String (List CanonicalRecord))
      (platforms : List String),
      strTruthy apiKey = true →
      ∃ out, searchPosts apiKey fetch platforms = .ok out ∧
        out = List.mergeSort
          ((platforms.map (platformContribution fetch)).flatten) engagementLE ∧
        out.Perm ((platforms.map (platformContribution fetch)).flatten) ∧
        List.Pairwise (fun a b => zOr b.engagement 0 ≤ zOr a.engagement 0) out ∧
        (∀ a b : CanonicalRecord,
          zOr a.engagement 0 = zOr b.engagement 0 →
          [a, b].Sublist ((platforms.map (platformContribution fetch)).flatten) →
          [a, b].Sublist out) := by
  intro apiKey fetch platforms hk
  refine ⟨_, by simp [searchPosts, searchPostsT, hk], rfl,
    List.mergeSort_perm _ _, ?_, ?_⟩
  · have hs := List.sorted_mergeSort engagementLE_trans engagementLE_total
      ((platforms.map (platformContribution fetch)).flatten)
    exact hs.imp (fun h => by
      simpa only [engagementLE, decide_eq_true_eq] using h)
  · intro a b heq hsub
    refine List.pair_sublist_mergeSort engagementLE_trans engagementLE_total ?_ hsub
    simp only [engagementLE, decide_eq_true_eq]
    omega

/-- C4 witness: a concrete configured-key call satisfies the ordering
characterization. -/
theorem searchPosts_orderIsStableEngagementSort_witness :
    ∃ out, searchPosts (some "k") (fun _ => .ok []) ["reddit"] = .ok out ∧
      out = List.mergeSort
        (((["reddit"] : List String).map
          (platformContribution (fun _ => .ok []))).flatten) engagementLE ∧
      out.Perm (((["reddit"] : List String).map
        (platformContribution (fun _ => .ok []))).flatten) ∧
      List.Pairwise (fun a b => zOr b.engagement 0 ≤ zOr a.engagement 0) out ∧
      (∀ a b : CanonicalRecord,
        zOr a.engagement 0 = zOr b.engagement 0 →
        [a, b].Sublist (((["reddit"] : List String).map
          (platformContribution (fun _ => .ok []))).flatten) →
        [a, b].Sublist out) :=
  searchPosts_orderIsStableEngagementSort (some "k") (fun _ => .ok [])
    ["reddit"] (by decide)
